import Mathlib

/-
Verification development for the TWS bridge server (tws-bridge-server).

The Python source is shallowly embedded: each stateful component becomes a
state structure with pure transition functions; calls into the vendor
connection object (EClient) are recorded as an explicit effect trace; the
point at which a blocking fetch wakes up is parameterised by the observable
contents of its PendingFetch at that moment.  Python floats that are only
passed through (prices) are carried as rationals; Python sets of strings
become finite sets of strings.
-/

set_option autoImplicit false

namespace TwsBridge

/-- Calls the core issues on the vendor connection object (EClient).
Fields not examined by any property (contract details, duration string,
end time, chart options) are omitted from the trace. -/
inductive Effect where
  | reqHistoricalData (req_id : Nat) (symbol : String) (bar_size : String)
      (keepUpToDate : Bool)
  | cancelHistoricalData (req_id : Nat)
  | clientConnect
  | clientDisconnect
  | reqMarketDataType (kind : Nat)
  deriving DecidableEq, Repr

/-! ## Civil-time arithmetic backing `parse_ibkr_date_to_utc`

The Python code builds a `datetime` carrying the host's fixed local UTC
offset and converts it with `astimezone(ZoneInfo('UTC'))`.  We model civil
date-times explicitly and aware-datetime conversion as arithmetic on
seconds since the Unix epoch (days via the standard civil-from-days /
days-from-civil algorithms, restricted to the `datetime` year range
1..9999 that the Python constructor enforces). -/

/-- Leap-year rule used by `datetime` (proleptic Gregorian). -/
def isLeapYear (y : Int) : Bool :=
  (y % 4 == 0 && y % 100 != 0) || (y % 400 == 0)

/-- Number of days in a month, as validated by the `datetime` constructor. -/
def daysInMonth (y m : Int) : Int :=
  if m = 2 then (if isLeapYear y then 29 else 28)
  else if m = 4 ∨ m = 6 ∨ m = 9 ∨ m = 11 then 30
  else 31

/-- Days since 1970-01-01 of a civil date (proleptic Gregorian). -/
def daysFromCivil (y m d : Int) : Int :=
  let y := if m ≤ 2 then y - 1 else y
  let era := (if 0 ≤ y then y else y - 399) / 400
  let yoe := y - era * 400
  let mp := if 2 < m then m - 3 else m + 9
  let doy := (153 * mp + 2) / 5 + d - 1
  let doe := yoe * 365 + yoe / 4 - yoe / 100 + doy
  era * 146097 + doe - 719468

/-- Civil date (year, month, day) of a count of days since 1970-01-01. -/
def civilFromDays (z : Int) : Int × Int × Int :=
  let z := z + 719468
  let era := (if 0 ≤ z then z else z - 146096) / 146097
  let doe := z - era * 146097
  let yoe := (doe - doe / 1460 + doe / 36524 - doe / 146096) / 365
  let y := yoe + era * 400
  let doy := doe - (365 * yoe + yoe / 4 - yoe / 100)
  let mp := (5 * doy + 2) / 153
  let d := doy - (153 * mp + 2) / 5 + 1
  let m := if mp < 10 then mp + 3 else mp - 9
  (if m ≤ 2 then y + 1 else y, m, d)

/-- A civil (wall-clock) date-time, the payload of a Python `datetime`. -/
structure CivilDT where
  year : Int
  month : Int
  day : Int
  hour : Int
  minute : Int
  second : Int
  deriving DecidableEq, Repr

/-- Seconds since the Unix epoch of a civil date-time read in UTC. -/
def civilToSec (c : CivilDT) : Int :=
  86400 * daysFromCivil c.year c.month c.day
    + 3600 * c.hour + 60 * c.minute + c.second

/-- Civil date-time in UTC of a count of seconds since the Unix epoch. -/
def civilFromSec (t : Int) : CivilDT :=
  let days := Int.fdiv t 86400
  let sod := Int.fmod t 86400
  let ymd := civilFromDays days
  { year := ymd.1, month := ymd.2.1, day := ymd.2.2,
    hour := sod / 3600, minute := (sod / 60) % 60, second := sod % 60 }

/-- Zero-pad a nonnegative integer to at least two digits. -/
def pad2 (n : Int) : String :=
  let s := toString n.toNat
  if s.length < 2 then "0" ++ s else s

/-- Zero-pad a nonnegative integer to at least four digits. -/
def pad4 (n : Int) : String :=
  let s := toString n.toNat
  if s.length ≥ 4 then s
  else String.mk (List.replicate (4 - s.length) '0') ++ s

/-- The string `datetime.isoformat()` produces for a UTC-aware datetime
with zero microseconds. -/
def isoUtcString (c : CivilDT) : String :=
  pad4 c.year ++ "-" ++ pad2 c.month ++ "-" ++ pad2 c.day ++ "T"
    ++ pad2 c.hour ++ ":" ++ pad2 c.minute ++ ":" ++ pad2 c.second ++ "+00:00"

/-- Digit-run parser for Python `int()`: ASCII digits with single
underscores allowed between digits.  `sawDigit` records whether the
previous character was a digit (an underscore must sit between digits). -/
def digitsCore (sawDigit : Bool) (acc : Nat) : List Char → Option Nat
  | [] => if sawDigit then some acc else none
  | c :: rest =>
    if c.isDigit then digitsCore true (acc * 10 + (c.toNat - 48)) rest
    else if c = '_' ∧ sawDigit then digitsCore false acc rest
    else none

/-- Drop trailing whitespace from a character list. -/
def dropTrailingWs (l : List Char) : List Char :=
  (l.reverse.dropWhile Char.isWhitespace).reverse

/-- Python `int()` on a character list: optional surrounding whitespace,
optional sign, then a nonempty digit run (ASCII digits). -/
def intOfChars (l : List Char) : Option Int :=
  match dropTrailingWs (l.dropWhile Char.isWhitespace) with
  | '-' :: rest => (digitsCore false 0 rest).map (fun n => -(n : Int))
  | '+' :: rest => (digitsCore false 0 rest).map (fun n => (n : Int))
  | l2 => (digitsCore false 0 l2).map (fun n => (n : Int))

/-- Python `str.split()` with no separator: split on runs of whitespace,
discarding empty pieces.  `cur` holds the current word reversed. -/
def wsSplitAux (cur : List Char) : List Char → List (List Char)
  | [] => if cur.isEmpty then [] else [cur.reverse]
  | c :: rest =>
    if c.isWhitespace then
      if cur.isEmpty then wsSplitAux [] rest
      else cur.reverse :: wsSplitAux [] rest
    else wsSplitAux (c :: cur) rest

/-- Python `str.split(':')`: split on every colon, keeping empty pieces. -/
def colonSplitAux (cur : List Char) : List Char → List (List Char)
  | [] => [cur.reverse]
  | c :: rest =>
    if c = ':' then cur.reverse :: colonSplitAux [] rest
    else colonSplitAux (c :: cur) rest

/-- Range checks the Python `datetime` constructor performs; construction
raises `ValueError` outside these bounds, which `parse_ibkr_date_to_utc`
catches. -/
def civilInRange (c : CivilDT) : Prop :=
  1 ≤ c.year ∧ c.year ≤ 9999 ∧ 1 ≤ c.month ∧ c.month ≤ 12 ∧
  1 ≤ c.day ∧ c.day ≤ daysInMonth c.year c.month ∧
  0 ≤ c.hour ∧ c.hour ≤ 23 ∧ 0 ≤ c.minute ∧ c.minute ≤ 59 ∧
  0 ≤ c.second ∧ c.second ≤ 59

instance (c : CivilDT) : Decidable (civilInRange c) := by
  unfold civilInRange; infer_instance

/-- The parsing half of `parse_ibkr_date_to_utc` (bar_fetcher.py lines
31-45): split on whitespace, slice the date part into year/month/day,
split the time part on colons into exactly three integers, and build a
`datetime` (whose constructor validates ranges).  `none` models any
exception along the way, which the caller turns into pass-through. -/
def parseCivilOpt (s : String) : Option CivilDT := do
  match wsSplitAux [] s.data with
  | [] => none
  | datePart :: rest =>
    let timePart := rest.headD ('0' :: '0' :: ':' :: '0' :: '0' :: ':' :: '0' :: '0' :: [])
    let year ← intOfChars (datePart.take 4)
    let month ← intOfChars ((datePart.drop 4).take 2)
    let day ← intOfChars ((datePart.drop 6).take 2)
    match (colonSplitAux [] timePart).mapM intOfChars with
    | some [hour, minute, second] =>
      let c : CivilDT :=
        { year := year, month := month, day := day,
          hour := hour, minute := minute, second := second }
      if civilInRange c then some c else none
    | _ => none

/-- Embedding of `parse_ibkr_date_to_utc` (bar_fetcher.py lines 17-56).
`hostOffsetMinutes` is the host machine's fixed local UTC offset in
minutes east of UTC (`datetime.now().astimezone().tzinfo`).  The civil
components are attached to that offset and converted to UTC
(`astimezone`), which on a fixed-offset aware datetime subtracts the
offset from the denoted instant; `astimezone` raises `OverflowError`
when the UTC result leaves the representable year range, which the
surrounding `except` turns into pass-through of the original string. -/
def parse_ibkr_date_to_utc (hostOffsetMinutes : Int) (date_str : String) : String :=
  match parseCivilOpt date_str with
  | none => date_str
  | some c =>
    let t := civilToSec c - 60 * hostOffsetMinutes
    let u := civilFromSec t
    if 1 ≤ u.year ∧ u.year ≤ 9999 then isoUtcString u else date_str

/-- Modelled from the spec's words, for comparison with the source
embedding: the returned timestamp is obtained by interpreting the parsed
civil components as civil time in the host machine's local timezone
(offset `hostOffsetMinutes`), converting to the equivalent absolute UTC
instant, and rendering that instant in ISO 8601 form. -/
def specUtcOfVendorTimestamp (hostOffsetMinutes : Int) (c : CivilDT) : String :=
  isoUtcString (civilFromSec (civilToSec c - 60 * hostOffsetMinutes))

/-! ## Bar data model (bar_fetcher.py) -/

/-- The bar object the vendor connection delivers to callbacks
(`ibapi.common.BarData`): only the fields the bridge reads.  Prices are
Python floats used purely as opaque pass-through values; they are carried
as rationals. -/
structure IBBar where
  date : String
  open_price : Rat
  high : Rat
  low : Rat
  close : Rat
  volume : Int
  average : Rat
  barCount : Int
  deriving DecidableEq, Repr

/-- Embedding of class `BarData` (bar_fetcher.py lines 59-71). -/
structure BarData where
  date : String
  open_price : Rat
  high : Rat
  low : Rat
  close : Rat
  volume : Int
  wap : Rat
  count : Int
  deriving DecidableEq, Repr

/-- The `BarData(...)` construction the callbacks perform from a vendor
bar (`int(bar.volume)` is the identity on our integer carrier). -/
def mkBarData (b : IBBar) : BarData :=
  { date := b.date, open_price := b.open_price, high := b.high, low := b.low,
    close := b.close, volume := b.volume, wap := b.average, count := b.barCount }

/-- The dictionary `BarData.to_dict` returns (bar_fetcher.py lines
73-84); the date field has been run through `parse_ibkr_date_to_utc`. -/
structure BarDict where
  date : String
  open_price : Rat
  high : Rat
  low : Rat
  close : Rat
  volume : Int
  wap : Rat
  count : Int
  deriving DecidableEq, Repr

/-- Embedding of `BarData.to_dict` (bar_fetcher.py lines 73-84), with the
host's UTC offset made explicit. -/
def to_dict (hostOffsetMinutes : Int) (b : BarData) : BarDict :=
  { date := parse_ibkr_date_to_utc hostOffsetMinutes b.date,
    open_price := b.open_price, high := b.high, low := b.low,
    close := b.close, volume := b.volume, wap := b.wap, count := b.count }

/-- Embedding of class `BarFetchRequest` (bar_fetcher.py lines 87-122):
the PendingFetch of the spec.  `is_complete` models whether the
`threading.Event` has been set. -/
structure BarFetchRequest where
  req_id : Nat
  include_forming : Bool
  bars : List BarData
  error : Option String
  is_complete : Bool
  deriving DecidableEq, Repr

/-- Embedding of `BarFetchRequest.add_bar` (lines 98-101). -/
def add_bar (r : BarFetchRequest) (b : BarData) : BarFetchRequest :=
  { r with bars := r.bars ++ [b] }

/-- Embedding of `BarFetchRequest.update_last_bar` (lines 103-109): when
the list is nonempty the last element is overwritten (`bars[-1] = bar`),
otherwise the bar is appended. -/
def update_last_bar (r : BarFetchRequest) (b : BarData) : BarFetchRequest :=
  if r.bars.isEmpty then { r with bars := r.bars ++ [b] }
  else { r with bars := r.bars.dropLast ++ [b] }

/-- Embedding of `BarFetchRequest.mark_complete` (lines 111-113). -/
def mark_complete (r : BarFetchRequest) : BarFetchRequest :=
  { r with is_complete := true }

/-- Embedding of `BarFetchRequest.mark_error` (lines 115-118). -/
def mark_error (r : BarFetchRequest) (e : String) : BarFetchRequest :=
  { r with error := some e, is_complete := true }

/-- The `BarFetcherWrapper.requests` dictionary keyed by request id. -/
def Registry := Nat → Option BarFetchRequest

/-- Embedding of `BarFetcherWrapper.register_request` (lines 136-140):
`self.requests[req_id] = request`. -/
def register_request (reqs : Registry) (req_id : Nat) (r : BarFetchRequest) :
    Registry :=
  fun j => if j = req_id then some r else reqs j

/-- Embedding of `BarFetcherWrapper.unregister_request` (lines 142-147):
delete the entry if present. -/
def unregister_request (reqs : Registry) (req_id : Nat) : Registry :=
  fun j => if j = req_id then none else reqs j

/-- Embedding of `BarFetcherWrapper.historicalData` (lines 149-166): a
complete bar is appended to the registered request; an unknown request id
is ignored. -/
def historicalData (reqs : Registry) (reqId : Nat) (bar : IBBar) : Registry :=
  match reqs reqId with
  | none => reqs
  | some r => register_request reqs reqId (add_bar r (mkBarData bar))

/-- Embedding of `BarFetcherWrapper.historicalDataEnd` (lines 168-175). -/
def historicalDataEnd (reqs : Registry) (reqId : Nat) : Registry :=
  match reqs reqId with
  | none => reqs
  | some r => register_request reqs reqId (mark_complete r)

/-- Embedding of `BarFetcherWrapper.historicalDataUpdate` (lines
177-196): a forming-bar update replaces the registered request's last bar
only when `include_forming` was requested; otherwise, and for unknown
request ids, it is ignored. -/
def historicalDataUpdate (reqs : Registry) (reqId : Nat) (bar : IBBar) :
    Registry :=
  match reqs reqId with
  | none => reqs
  | some r =>
    if r.include_forming then
      register_request reqs reqId (update_last_bar r (mkBarData bar))
    else reqs

/-- Informational vendor codes ignored by the wrapper error handler
(bar_fetcher.py line 211). -/
def informationalCodes : List Int := [2104, 2106, 2158, 2174, 2176]

/-- Embedding of `BarFetcherWrapper.error` (lines 198-215), restricted to
its effect on the request registry (the delegation to the base wrapper is
connection-manager state, modelled separately). -/
def wrapperError (reqs : Registry) (reqId : Int) (errorCode : Int)
    (errorString : String) : Registry :=
  if 0 < reqId then
    match reqs reqId.toNat with
    | none => reqs
    | some r =>
      if errorCode ∈ informationalCodes then reqs
      else register_request reqs reqId.toNat
        (mark_error r ("[" ++ toString errorCode ++ "] " ++ errorString))
  else reqs

/-- One vendor callback delivered on the session worker, tagged with the
request id it targets. -/
inductive TwsEvent where
  | completeBar (reqId : Nat) (bar : IBBar)
  | formingBar (reqId : Nat) (bar : IBBar)
  | dataEnd (reqId : Nat)
  | errEvent (reqId : Int) (code : Int) (msg : String)
  deriving DecidableEq, Repr

/-- Request id an event targets. -/
def TwsEvent.target : TwsEvent → Nat
  | .completeBar i _ => i
  | .formingBar i _ => i
  | .dataEnd i => i
  | .errEvent i _ _ => i.toNat

/-- Dispatch of one vendor callback to the wrapper embedding. -/
def stepEvent (reqs : Registry) : TwsEvent → Registry
  | .completeBar i b => historicalData reqs i b
  | .formingBar i b => historicalDataUpdate reqs i b
  | .dataEnd i => historicalDataEnd reqs i
  | .errEvent i c m => wrapperError reqs i c m

/-- A serial sequence of vendor callbacks, in delivery order. -/
def runEvents (reqs : Registry) (evs : List TwsEvent) : Registry :=
  evs.foldl stepEvent reqs

/-! ## Bar size maps -/

/-- The `bar_size_map` dictionary of `BarFetcher.fetch_bars`
(bar_fetcher.py lines 275-289). -/
def fetch_bar_size_map (period : String) : Option String :=
  if period = "1m" then some "1 min"
  else if period = "2m" then some "2 mins"
  else if period = "3m" then some "3 mins"
  else if period = "5m" then some "5 mins"
  else if period = "10m" then some "10 mins"
  else if period = "15m" then some "15 mins"
  else if period = "30m" then some "30 mins"
  else if period = "1h" then some "1 hour"
  else if period = "2h" then some "2 hours"
  else if period = "4h" then some "4 hours"
  else if period = "1d" then some "1 day"
  else if period = "1w" then some "1 week"
  else if period = "1M" then some "1 month"
  else none

/-- The `bar_size_map` dictionary of `StreamingManager.subscribe`
(streaming_manager.py lines 208-214). -/
def streaming_bar_size_map (period : String) : Option String :=
  if period = "1m" then some "1 min"
  else if period = "5m" then some "5 mins"
  else if period = "15m" then some "15 mins"
  else if period = "30m" then some "30 mins"
  else if period = "1h" then some "1 hour"
  else none

/-! ## BarFetcher.fetch_bars (bar_fetcher.py lines 236-347)

The call blocks on `request.wait(timeout)`; what the caller observes at
wake-up is the completion flag and the request contents the callback
worker produced meanwhile.  `WakeState` packages that observation, so the
embedding is a pure function quantified over every possible interleaving
of the callback worker with the waiting caller. -/

/-- State the fetch path reads and writes: the owning HTTP connection's
connected flag and request-id counter, and the wrapper's request
registry. -/
structure FetchState where
  connected : Bool
  nextReqId : Nat
  requests : Registry

/-- Contents of the PendingFetch at the moment `request.wait` returns:
the completion flag (false on timeout) and the bars and error the
callbacks accumulated. -/
structure WakeState where
  completed : Bool
  error : Option String
  bars : List BarData

/-- Outcomes of `fetch_bars`: the exception raised, or the bar
dictionaries returned.  `notConnected` is the `RuntimeError` at line 262,
`invalidParameter` the `ValueError` at line 292, `timeout` the
`TimeoutError` at line 332, `fetchFailed` the `RuntimeError` at line
335. -/
inductive FetchResult where
  | ok (bars : List BarDict)
  | notConnected
  | invalidParameter (period : String)
  | timeout
  | fetchFailed (msg : String)
  deriving DecidableEq, Repr

/-- Embedding of `BarFetcher.fetch_bars` (bar_fetcher.py lines 236-347).
Returns the result, the post state, and the trace of vendor calls.  The
`finally` block always cancels the streaming portion when
`include_forming` was set and then unregisters the request. -/
def fetch_bars (st : FetchState) (hostOffsetMinutes : Int)
    (symbol : String) (period : String) (include_forming : Bool)
    (wake : WakeState) : FetchResult × FetchState × List Effect :=
  if st.connected = false then (.notConnected, st, [])
  else
    match fetch_bar_size_map period with
    | none => (.invalidParameter period, st, [])
    | some bar_size =>
      let req_id := st.nextReqId
      let registered := register_request st.requests req_id
        { req_id := req_id, include_forming := include_forming,
          bars := [], error := none, is_complete := false }
      let woken := register_request registered req_id
        { req_id := req_id, include_forming := include_forming,
          bars := wake.bars, error := wake.error,
          is_complete := wake.completed }
      let result : FetchResult :=
        if wake.completed = false then .timeout
        else
          match wake.error with
          | some e => .fetchFailed e
          | none => .ok (wake.bars.map (to_dict hostOffsetMinutes))
      let cleanupEffects : List Effect :=
        if include_forming then [.cancelHistoricalData req_id] else []
      (result,
       { connected := st.connected, nextReqId := st.nextReqId + 1,
         requests := unregister_request woken req_id },
       Effect.reqHistoricalData req_id symbol bar_size include_forming
         :: cleanupEffects)

/-! ## StreamingManager (streaming_manager.py) -/

/-- Embedding of class `StreamingSubscription` (streaming_manager.py
lines 15-43).  `created_at` (wall-clock) and the always-true `is_active`
flag carry no verified behaviour and are omitted. -/
structure StreamingSubscription where
  req_id : Nat
  symbol : String
  period : String
  session : String
  what : String
  subscribers : Finset String
  last_bar : Option BarData
  update_count : Nat
  deriving DecidableEq

/-- Embedding of the `StreamingSubscription` constructor (lines 18-28):
a fresh subscription starts with an empty subscriber set. -/
def initSubscription (req_id : Nat) (symbol period session what : String) :
    StreamingSubscription :=
  { req_id := req_id, symbol := symbol, period := period,
    session := session, what := what, subscribers := ∅, last_bar := none,
    update_count := 0 }

/-- Embedding of `StreamingSubscription.add_subscriber` (lines 30-33). -/
def add_subscriber (sub : StreamingSubscription) (connection_id : String) :
    StreamingSubscription :=
  { sub with subscribers := insert connection_id sub.subscribers }

/-- Embedding of `StreamingSubscription.remove_subscriber` (lines 35-39):
removal of an id that is not a member leaves the set unchanged, matching
the source's membership guard. -/
def remove_subscriber (sub : StreamingSubscription)
    (connection_id : String) : StreamingSubscription :=
  { sub with subscribers := sub.subscribers.erase connection_id }

/-- State of the streaming manager together with the WebSocket
connection's connected flag and request-id counter (`tws_manager`).
`callbacks` records which symbols have a registered update callback. -/
structure SMState where
  subscriptions : String → Option StreamingSubscription
  callbacks : String → Bool
  nextReqId : Nat
  connected : Bool

/-- Results of `StreamingManager.subscribe`: the returned dictionary, or
the `ValueError` raised for an unsupported period (line 217). -/
inductive SubResult where
  | subscribed (symbol : String) (req_id : Nat) (existing : Bool)
      (subscribers : Nat)
  | unsupportedPeriod (period : String)
  deriving DecidableEq, Repr

/-- Embedding of `StreamingManager.subscribe` (streaming_manager.py lines
146-266).  If a subscription for the symbol exists, the connection id is
added to its subscriber set and its request id returned with
`existing = True`; otherwise a request id is allocated, the period
validated, one vendor streaming request issued (`keepUpToDate = True`),
and the subscription created with this connection as sole subscriber.
No connection-state check appears anywhere on this path. -/
def subscribe (st : SMState) (symbol period session what : String)
    (connection_id : String) (hasCallback : Bool) :
    SubResult × SMState × List Effect :=
  match st.subscriptions symbol with
  | some sub =>
    let sub2 := add_subscriber sub connection_id
    (.subscribed symbol sub.req_id true sub2.subscribers.card,
     { st with subscriptions :=
        fun s => if s = symbol then some sub2 else st.subscriptions s },
     [])
  | none =>
    let req_id := st.nextReqId
    let st1 := { st with nextReqId := st.nextReqId + 1 }
    match streaming_bar_size_map period with
    | none => (.unsupportedPeriod period, st1, [])
    | some bar_size =>
      let sub := add_subscriber
        (initSubscription req_id symbol period session what) connection_id
      (.subscribed symbol req_id false 1,
       { st1 with
          subscriptions :=
            fun s => if s = symbol then some sub else st1.subscriptions s,
          callbacks :=
            fun s => if s = symbol then (hasCallback || st1.callbacks s)
                     else st1.callbacks s },
       [Effect.reqHistoricalData req_id symbol bar_size true])

/-- Sequential composition of `subscribe` calls with identical stream
parameters, one per connection id, collecting results and effects. -/
def subscribeAll (st : SMState) (symbol period session what : String) :
    List String → List SubResult × SMState × List Effect
  | [] => ([], st, [])
  | id :: rest =>
    let step := subscribe st symbol period session what id false
    let tail := subscribeAll step.2.1 symbol period session what rest
    (step.1 :: tail.1, tail.2.1, step.2.2 ++ tail.2.2)

/-- Results of `StreamingManager.unsubscribe` (lines 268-304): the
`status` field together with the data the dictionary carries. -/
inductive UnsubResult where
  | notFound (symbol : String)
  | cancelled (symbol : String)
  | unsubscribed (symbol : String) (remaining : Nat)
  deriving DecidableEq, Repr

/-- Embedding of `StreamingManager.unsubscribe` (streaming_manager.py
lines 268-304): remove the connection from the symbol's subscriber set;
if none remain, cancel the vendor request and delete the subscription and
its callback entry; report not_found when no subscription exists. -/
def unsubscribe (st : SMState) (symbol connection_id : String) :
    UnsubResult × SMState × List Effect :=
  match st.subscriptions symbol with
  | none => (.notFound symbol, st, [])
  | some sub =>
    let sub2 := remove_subscriber sub connection_id
    if sub2.subscribers = ∅ then
      (.cancelled symbol,
       { st with
          subscriptions := fun s => if s = symbol then none
                                    else st.subscriptions s,
          callbacks := fun s => if s = symbol then false
                                else st.callbacks s },
       [Effect.cancelHistoricalData sub.req_id])
    else
      (.unsubscribed symbol sub2.subscribers.card,
       { st with subscriptions :=
          fun s => if s = symbol then some sub2 else st.subscriptions s },
       [])

/-! ## TWSConnectionManager.connect (connection_manager.py lines 102-162) -/

/-- State of one `TWSConnectionManager`: the transport-level flag
(`client.isConnected()`), the handshake-level flag
(`wrapper.is_connected`), the two worker threads, and the stop signal. -/
structure ConnState where
  transportConnected : Bool
  handshakeConnected : Bool
  apiThreadAlive : Bool
  monitorAlive : Bool
  shouldStop : Bool
  deriving DecidableEq, Repr

/-- Environment of one `connect()` attempt: whether `client.connect`
establishes the socket and whether the handshake callback
(`nextValidId`) arrives within the connect timeout. -/
structure ConnectOracle where
  socketOpens : Bool
  handshakeArrives : Bool
  deriving DecidableEq, Repr

/-- Embedding of `TWSConnectionManager.connect` (connection_manager.py
lines 102-162).  When both flags already agree on connected, it returns
success immediately with no transport operation.  Otherwise it force
disconnects a half-open transport, opens the transport, ensures the API
thread, waits for the handshake, and on success sets the market data type
and ensures the monitor; on timeout it tears down and reports failure. -/
def connect (st : ConnState) (o : ConnectOracle) :
    Bool × ConnState × List Effect :=
  if st.transportConnected && st.handshakeConnected then (true, st, [])
  else
    let cleanup :=
      if st.transportConnected && !st.handshakeConnected then
        ({ st with transportConnected := false }, [Effect.clientDisconnect])
      else (st, ([] : List Effect))
    let stc := cleanup.1
    let st1 := { stc with transportConnected := o.socketOpens, apiThreadAlive := true }
    let effs := cleanup.2 ++ [Effect.clientConnect]
    if o.handshakeArrives then
      (true,
       { st1 with handshakeConnected := true, monitorAlive := true },
       effs ++ [Effect.reqMarketDataType 2])
    else
      (false,
       { st1 with
          transportConnected := false
          handshakeConnected := false
          shouldStop := true },
       effs ++ [Effect.clientDisconnect])

/-- Embedding of `TWSConnectionManager.is_connected` (lines 173-175). -/
def is_connected (st : ConnState) : Bool :=
  st.transportConnected && st.handshakeConnected

/-! ## Projections and concrete fixtures used by the theorems -/

/-- Insertion of a list of subscriber ids into a subscriber set, in call
order; used to state the effect of repeated subscribe calls. -/
def insertAll (ids : List String) (s : Finset String) : Finset String :=
  ids.foldl (fun t c => insert c t) s

/-- Request id carried by a subscribe response, when it is a response. -/
def SubResult.reqIdOf : SubResult → Option Nat
  | .subscribed _ r _ _ => some r
  | .unsupportedPeriod _ => none

/-- Already-existing flag carried by a subscribe response. -/
def SubResult.existingOf : SubResult → Option Bool
  | .subscribed _ _ e _ => some e
  | .unsupportedPeriod _ => none

/-- A vendor bar with a distinguishing date tag and inert price fields. -/
def tagBar (tag : String) : IBBar :=
  { date := tag, open_price := 1, high := 2, low := 0, close := 1,
    volume := 3, average := 1, barCount := 1 }

/-- A fresh PendingFetch with streaming retention enabled, as
`fetch_bars` registers it. -/
def freshReq (i : Nat) : BarFetchRequest :=
  { req_id := i, include_forming := true, bars := [], error := none,
    is_complete := false }

/-- A registry holding exactly one fresh streaming-enabled request. -/
def oneReqRegistry (i : Nat) : Registry :=
  fun j => if j = i then some (freshReq i) else none

/-- Scenario B's callback sequence for request id 1: ten complete bars,
the data-end marker, then three forming-bar updates. -/
def scenarioB : List TwsEvent :=
  ((List.range 10).map (fun k => TwsEvent.completeBar 1 (tagBar (toString k))))
    ++ [TwsEvent.dataEnd 1]
    ++ [TwsEvent.formingBar 1 (tagBar "u1"),
        TwsEvent.formingBar 1 (tagBar "u2"),
        TwsEvent.formingBar 1 (tagBar "u3")]

/-- A streaming-manager state with no subscriptions, no callbacks, the
WebSocket connection's starting request id, and no live session. -/
def emptySMState (connectedFlag : Bool) : SMState :=
  { subscriptions := fun _ => none, callbacks := fun _ => false,
    nextReqId := 5000, connected := connectedFlag }

/-- A streaming-manager state holding one live subscription for "SPY"
with the given subscriber set and a registered callback entry. -/
def spySMState (subs : Finset String) : SMState :=
  { subscriptions := fun s =>
      if s = "SPY" then
        some { req_id := 6000, symbol := "SPY", period := "5m",
               session := "rth", what := "TRADES", subscribers := subs,
               last_bar := none, update_count := 7 }
      else none,
    callbacks := fun s => s == "SPY", nextReqId := 6001, connected := true }

/-! ## Helper lemmas -/

/-- Overwriting the tail slot: on any request, `update_last_bar` leaves
everything but the bar list unchanged and the bar list becomes the old
list without its last element, followed by the update (for an empty list
both branches of the source coincide on `[b]`). -/
theorem update_last_bar_eq (r : BarFetchRequest) (b : BarData) :
    update_last_bar r b = { r with bars := r.bars.dropLast ++ [b] } := by
  unfold update_last_bar
  by_cases h : r.bars.isEmpty
  · have hnil : r.bars = [] := by simpa using h
    simp [h, hnil]
  · simp [h]

/-! ## C9 -/

/-- C9: a forming-bar update delivered for a registered PendingFetch with
includeForming set while its accumulated bar list is empty is appended as
the first element, yielding a one-element list, rather than being dropped
or raising. -/
theorem c9_first_forming_update_creates_slot (reqs : Registry) (i : Nat)
    (r : BarFetchRequest) (b : IBBar)
    (hreg : reqs i = some r) (hf : r.include_forming = true)
    (hempty : r.bars = []) :
    (historicalDataUpdate reqs i b) i = some { r with bars := [mkBarData b] } := by
  simp [historicalDataUpdate, hreg, hf, update_last_bar, hempty,
    register_request]

/-- C9 witness: the theorem applied to a registry holding one fresh
streaming-enabled request at id 7 and a concrete vendor bar. -/
theorem c9_first_forming_update_creates_slot_witness :
    (historicalDataUpdate (oneReqRegistry 7) 7 (tagBar "u")) 7 =
      some { freshReq 7 with bars := [mkBarData (tagBar "u")] } :=
  c9_first_forming_update_creates_slot (oneReqRegistry 7) 7 (freshReq 7)
    (tagBar "u") rfl rfl rfl

/-! ## C10 -/

/-- C10: `parse_ibkr_date_to_utc` is total and returns the input string
unchanged for every input that cannot be parsed as a vendor date-time, so
a malformed vendor timestamp passes through to the caller instead of
failing the fetch. -/
theorem c10_unparseable_timestamp_passthrough (off : Int) (s : String)
    (h : parseCivilOpt s = none) :
    parse_ibkr_date_to_utc off s = s := by
  simp [parse_ibkr_date_to_utc, h]

/-- C10 witness: a concrete malformed timestamp passes through unchanged
under a nonzero host offset. -/
theorem c10_unparseable_timestamp_passthrough_witness :
    parseCivilOpt "not a date" = none ∧
      parse_ibkr_date_to_utc 120 "not a date" = "not a date" :=
  ⟨by decide, c10_unparseable_timestamp_passthrough 120 "not a date" (by decide)⟩

/-! ## C8 -/

/-- C8: when the transport reports connected and the handshake state is
connected, `connect()` performs no transport operation and returns
success, and a second call in a row does the same. -/
theorem c8_connect_idempotent_when_connected (st : ConnState)
    (o o2 : ConnectOracle)
    (ht : st.transportConnected = true) (hh : st.handshakeConnected = true) :
    connect st o = (true, st, []) ∧
      connect (connect st o).2.1 o2 = (true, st, []) := by
  have h1 : connect st o = (true, st, []) := by simp [connect, ht, hh]
  refine ⟨h1, ?_⟩
  rw [h1]
  simp [connect, ht, hh]

/-- C8 witness: both calls on a concrete fully-connected state return
success with no transport effect. -/
theorem c8_connect_idempotent_when_connected_witness :
    connect ⟨true, true, true, true, false⟩ ⟨true, true⟩ =
        (true, ⟨true, true, true, true, false⟩, []) ∧
      connect (connect ⟨true, true, true, true, false⟩ ⟨true, true⟩).2.1
          ⟨false, false⟩ =
        (true, ⟨true, true, true, true, false⟩, []) :=
  c8_connect_idempotent_when_connected ⟨true, true, true, true, false⟩
    ⟨true, true⟩ ⟨false, false⟩ rfl rfl

/-! ## C5 -/

/-- C5: for every bar timestamp string the vendor delivers that parses as
a vendor date-time (and whose converted instant stays in the
representable year range), the returned timestamp is exactly the spec's
reading: the civil components interpreted in the host machine's local
timezone (the fixed offset `off`, not any exchange attribute, which the
function does not even receive) converted to the equivalent absolute UTC
instant and rendered in ISO 8601 form. -/
theorem c5_timestamp_host_local_to_utc (off : Int) (s : String) (c : CivilDT)
    (hp : parseCivilOpt s = some c)
    (hlo : 1 ≤ (civilFromSec (civilToSec c - 60 * off)).year)
    (hhi : (civilFromSec (civilToSec c - 60 * off)).year ≤ 9999) :
    parse_ibkr_date_to_utc off s = specUtcOfVendorTimestamp off c := by
  unfold parse_ibkr_date_to_utc specUtcOfVendorTimestamp
  rw [hp]
  simp [hlo, hhi]

/-- C5 witness: the docstring example "20260126  09:55:00" on a host at
UTC-5 (offset -300 minutes) converts to 2026-01-26T14:55:00+00:00. -/
theorem c5_timestamp_host_local_to_utc_witness :
    parseCivilOpt "20260126  09:55:00" = some ⟨2026, 1, 26, 9, 55, 0⟩ ∧
      parse_ibkr_date_to_utc (-300) "20260126  09:55:00" =
        specUtcOfVendorTimestamp (-300) ⟨2026, 1, 26, 9, 55, 0⟩ ∧
      specUtcOfVendorTimestamp (-300) ⟨2026, 1, 26, 9, 55, 0⟩ =
        "2026-01-26T14:55:00+00:00" :=
  ⟨by decide,
   c5_timestamp_host_local_to_utc (-300) "20260126  09:55:00"
     ⟨2026, 1, 26, 9, 55, 0⟩ (by decide) (by decide) (by decide),
   by decide⟩

/-! ## C7 -/

/-- C7: `unsubscribe` removes the subscriber from the symbol's
subscription; when the set becomes empty it issues exactly one vendor
cancellation for the subscription's request id, deletes the subscription
and its callback entry and reports cancelled; when subscribers remain it
reports the remaining count and issues nothing; and when no subscription
exists it reports not found (the embedding is a total function: nothing
is thrown). -/
theorem c7_unsubscribe_cases (st : SMState) (symbol cid : String) :
    (st.subscriptions symbol = none →
        unsubscribe st symbol cid = (.notFound symbol, st, [])) ∧
    (∀ sub, st.subscriptions symbol = some sub →
        sub.subscribers.erase cid = ∅ →
        (unsubscribe st symbol cid).1 = .cancelled symbol ∧
        (unsubscribe st symbol cid).2.2 =
          [Effect.cancelHistoricalData sub.req_id] ∧
        (unsubscribe st symbol cid).2.1.subscriptions symbol = none ∧
        (unsubscribe st symbol cid).2.1.callbacks symbol = false) ∧
    (∀ sub, st.subscriptions symbol = some sub →
        sub.subscribers.erase cid ≠ ∅ →
        (unsubscribe st symbol cid).1 =
          .unsubscribed symbol (sub.subscribers.erase cid).card ∧
        (unsubscribe st symbol cid).2.2 = [] ∧
        (unsubscribe st symbol cid).2.1.subscriptions symbol =
          some (remove_subscriber sub cid)) := by
  refine ⟨?_, ?_, ?_⟩
  · intro h
    simp [unsubscribe, h]
  · intro sub h he
    simp [unsubscribe, remove_subscriber, h, he]
  · intro sub h he
    simp [unsubscribe, remove_subscriber, h, he]

/-- C7 witness: the theorem applied at three concrete states covering the
not-found, fully-cancelled and detached cases. -/
theorem c7_unsubscribe_cases_witness :
    (unsubscribe (emptySMState true) "SPY" "A" =
      (.notFound "SPY", emptySMState true, [])) ∧
    ((unsubscribe (spySMState {"A"}) "SPY" "A").1 = .cancelled "SPY" ∧
     (unsubscribe (spySMState {"A"}) "SPY" "A").2.2 =
       [Effect.cancelHistoricalData 6000] ∧
     (unsubscribe (spySMState {"A"}) "SPY" "A").2.1.subscriptions "SPY" =
       none ∧
     (unsubscribe (spySMState {"A"}) "SPY" "A").2.1.callbacks "SPY" =
       false) ∧
    ((unsubscribe (spySMState {"A", "B"}) "SPY" "A").1 =
       .unsubscribed "SPY" ((({"A", "B"} : Finset String).erase "A").card) ∧
     (unsubscribe (spySMState {"A", "B"}) "SPY" "A").2.2 = []) ∧
    (({"A", "B"} : Finset String).erase "A").card = 1 :=
  ⟨(c7_unsubscribe_cases (emptySMState true) "SPY" "A").1 rfl,
   (c7_unsubscribe_cases (spySMState {"A"}) "SPY" "A").2.1 _ rfl (by decide),
   ⟨((c7_unsubscribe_cases (spySMState {"A", "B"}) "SPY" "A").2.2 _ rfl
       (by decide)).1,
    ((c7_unsubscribe_cases (spySMState {"A", "B"}) "SPY" "A").2.2 _ rfl
       (by decide)).2.1⟩,
   by decide⟩

/-! ## C4 -/

/-- C4: a fetch whose PendingFetch is never signalled complete fails with
Timeout once the wait elapses, and in every outcome the cleanup runs: the
vendor cancellation for the allocated request id is issued exactly when
`include_forming` was set (exactly once then, never otherwise), and the
PendingFetch is unregistered, so a late complete-bar or forming-bar
callback for that request id finds no registered request and changes
nothing. -/
theorem c4_fetch_timeout_and_cleanup (st : FetchState) (off : Int)
    (symbol period bar_size : String) (inc : Bool) (wake : WakeState)
    (hc : st.connected = true)
    (hbs : fetch_bar_size_map period = some bar_size) :
    (wake.completed = false →
        (fetch_bars st off symbol period inc wake).1 = .timeout) ∧
    (fetch_bars st off symbol period inc wake).2.2.count
        (Effect.cancelHistoricalData st.nextReqId) =
      (if inc then 1 else 0) ∧
    ((Effect.cancelHistoricalData st.nextReqId ∈
        (fetch_bars st off symbol period inc wake).2.2) ↔ inc = true) ∧
    (fetch_bars st off symbol period inc wake).2.1.requests st.nextReqId =
      none ∧
    (∀ b, historicalData
        (fetch_bars st off symbol period inc wake).2.1.requests
        st.nextReqId b =
      (fetch_bars st off symbol period inc wake).2.1.requests) ∧
    (∀ b, historicalDataUpdate
        (fetch_bars st off symbol period inc wake).2.1.requests
        st.nextReqId b =
      (fetch_bars st off symbol period inc wake).2.1.requests) := by
  have hreq : (fetch_bars st off symbol period inc wake).2.1.requests
      st.nextReqId = none := by
    simp [fetch_bars, hc, hbs, unregister_request]
  refine ⟨?_, ?_, ?_, hreq, ?_, ?_⟩
  · intro hw
    simp [fetch_bars, hc, hbs, hw]
  · cases inc <;> simp [fetch_bars, hc, hbs]
  · cases inc <;> simp [fetch_bars, hc, hbs]
  · intro b
    simp [historicalData, hreq]
  · intro b
    simp [historicalDataUpdate, hreq]

/-- C4 witness: a concrete never-completed fetch with `include_forming`
set times out, issues exactly one cancellation for its request id, and
leaves the request unregistered. -/
theorem c4_fetch_timeout_and_cleanup_witness :
    ((fetch_bars ⟨true, 1000, fun _ => none⟩ 0 "AAPL" "5m" true
        ⟨false, none, []⟩).1 = .timeout) ∧
    ((fetch_bars ⟨true, 1000, fun _ => none⟩ 0 "AAPL" "5m" true
        ⟨false, none, []⟩).2.2.count (Effect.cancelHistoricalData 1000) =
      1) ∧
    ((fetch_bars ⟨true, 1000, fun _ => none⟩ 0 "AAPL" "5m" true
        ⟨false, none, []⟩).2.1.requests 1000 = none) :=
  ⟨(c4_fetch_timeout_and_cleanup ⟨true, 1000, fun _ => none⟩ 0 "AAPL" "5m"
      "5 mins" true ⟨false, none, []⟩ rfl rfl).1 rfl,
   (c4_fetch_timeout_and_cleanup ⟨true, 1000, fun _ => none⟩ 0 "AAPL" "5m"
      "5 mins" true ⟨false, none, []⟩ rfl rfl).2.1,
   (c4_fetch_timeout_and_cleanup ⟨true, 1000, fun _ => none⟩ 0 "AAPL" "5m"
      "5 mins" true ⟨false, none, []⟩ rfl rfl).2.2.2.1⟩

/-! ## C6 -/

/-- C6 counterexample: there is no single closed set of supported
bar-size codes shared by fetch and subscribe.  The code "1d" is mapped by
fetch's map to the vendor token "1 day", yet subscribe rejects it with
the invalid-parameter error (`ValueError`), so no set can be exactly the
supported codes of both operations at once. -/
theorem c6_single_supported_set_counterexample :
    fetch_bar_size_map "1d" = some "1 day" ∧
    streaming_bar_size_map "1d" = none ∧
    (subscribe (emptySMState true) "SPY" "1d" "rth" "TRADES" "A" false).1 =
      .unsupportedPeriod "1d" ∧
    ¬ ∃ S : String → Prop,
        (∀ p, S p ↔ (fetch_bar_size_map p).isSome = true) ∧
        (∀ p, S p ↔ (streaming_bar_size_map p).isSome = true) := by
  refine ⟨by decide, by decide, by decide, ?_⟩
  rintro ⟨S, hf, hs⟩
  have h1 : S "1d" := (hf "1d").2 (by decide)
  have h2 := (hs "1d").1 h1
  exact absurd h2 (by decide)

/-- C6 amended: each operation validates against its own closed bar-size
map; fetch's map sends each supported code to exactly one vendor token;
for a code outside fetch's map, a connected fetch fails with the
invalid-parameter error before any vendor call, and for a code outside
subscribe's map, a stream-creating subscribe fails likewise with no
vendor call; subscribe's supported set is a strict subset of fetch's
(witnessed by "1d"). -/
theorem c6_per_operation_bar_size_validation (p : String) :
    ((streaming_bar_size_map p).isSome = true →
        (fetch_bar_size_map p).isSome = true) ∧
    (∀ t t2, fetch_bar_size_map p = some t →
        fetch_bar_size_map p = some t2 → t = t2) ∧
    (∀ (st : FetchState) (off : Int) (symbol : String) (inc : Bool)
        (wake : WakeState),
        st.connected = true → fetch_bar_size_map p = none →
        fetch_bars st off symbol p inc wake =
          (.invalidParameter p, st, [])) ∧
    (∀ (st : SMState) (symbol session what cid : String) (cb : Bool),
        st.subscriptions symbol = none → streaming_bar_size_map p = none →
        (subscribe st symbol p session what cid cb).1 =
          .unsupportedPeriod p ∧
        (subscribe st symbol p session what cid cb).2.2 = []) ∧
    (fetch_bar_size_map "1d").isSome = true ∧
    (streaming_bar_size_map "1d").isSome = false := by
  refine ⟨?_, ?_, ?_, ?_, by decide, by decide⟩
  · intro h
    unfold streaming_bar_size_map at h
    split_ifs at h with h1 h2 h3 h4 h5
    · subst h1; decide
    · subst h2; decide
    · subst h3; decide
    · subst h4; decide
    · subst h5; decide
    · exact absurd h (by decide)
  · intro t t2 h1 h2
    rw [h1] at h2
    exact Option.some.inj h2
  · intro st off symbol inc wake hc hn
    simp [fetch_bars, hc, hn]
  · intro st symbol session what cid cb hfresh hn
    simp [subscribe, hfresh, hn]

/-- C6 witness: the code "7m" is outside both maps; a connected fetch and
a stream-creating subscribe both reject it with the invalid-parameter
error and issue no vendor call. -/
theorem c6_per_operation_bar_size_validation_witness :
    (fetch_bars ⟨true, 1000, fun _ => none⟩ 0 "AAPL" "7m" false
        ⟨true, none, []⟩ =
      (.invalidParameter "7m", ⟨true, 1000, fun _ => none⟩, [])) ∧
    ((subscribe (emptySMState true) "SPY" "7m" "rth" "TRADES" "A" false).1 =
      .unsupportedPeriod "7m" ∧
     (subscribe (emptySMState true) "SPY" "7m" "rth" "TRADES" "A"
        false).2.2 = []) :=
  ⟨(c6_per_operation_bar_size_validation "7m").2.2.1
      ⟨true, 1000, fun _ => none⟩ 0 "AAPL" false ⟨true, none, []⟩ rfl rfl,
   (c6_per_operation_bar_size_validation "7m").2.2.2.1
      (emptySMState true) "SPY" "rth" "TRADES" "A" false rfl rfl⟩

/-! ## C3 -/

/-- C3 counterexample: a subscribe call on a state with no live session
(`connected = false`) does not fail with Unavailable — it returns a
successful new-subscription response and issues the vendor streaming
request anyway. -/
theorem c3_disconnected_subscribe_counterexample :
    (subscribe (emptySMState false) "SPY" "5m" "rth" "TRADES" "A" false).1 =
      .subscribed "SPY" 5000 false 1 ∧
    (subscribe (emptySMState false) "SPY" "5m" "rth" "TRADES" "A"
        false).2.2 =
      [Effect.reqHistoricalData 5000 "SPY" "5 mins" true] ∧
    (emptySMState false).connected = false := by
  refine ⟨by decide, by decide, rfl⟩

/-- C3 amended: `StreamingManager.subscribe` performs no connectivity
check at all: its response, the vendor calls it issues, and the
subscription table it produces are identical whether or not a vendor
session is connected, so a call made while disconnected never fails with
Unavailable. -/
theorem c3_subscribe_ignores_connection_state (st : SMState)
    (symbol period session what cid : String) (cb : Bool) (b1 b2 : Bool) :
    (subscribe { st with connected := b1 } symbol period session what cid
        cb).1 =
      (subscribe { st with connected := b2 } symbol period session what cid
        cb).1 ∧
    (subscribe { st with connected := b1 } symbol period session what cid
        cb).2.2 =
      (subscribe { st with connected := b2 } symbol period session what cid
        cb).2.2 ∧
    ∀ s, (subscribe { st with connected := b1 } symbol period session what
        cid cb).2.1.subscriptions s =
      (subscribe { st with connected := b2 } symbol period session what cid
        cb).2.1.subscriptions s := by
  cases h : st.subscriptions symbol with
  | none => cases hm : streaming_bar_size_map period <;> simp [subscribe, h, hm]
  | some sub => simp [subscribe, h]

/-! ## C2 -/

/-- A run of complete-bar callbacks for a registered request appends each
bar in delivery order. -/
theorem runEvents_completeBars (i : Nat) (cs : List IBBar) :
    ∀ (r0 : Registry) (r : BarFetchRequest), r0 i = some r →
      (runEvents r0 (cs.map (TwsEvent.completeBar i))) i =
        some { r with bars := r.bars ++ cs.map mkBarData } := by
  induction cs with
  | nil =>
    intro r0 r h
    simpa [runEvents] using h
  | cons c cs ih =>
    intro r0 r h
    have hstep : (stepEvent r0 (TwsEvent.completeBar i c)) i =
        some (add_bar r (mkBarData c)) := by
      simp [stepEvent, historicalData, h, register_request]
    have hrec := ih (stepEvent r0 (TwsEvent.completeBar i c))
      (add_bar r (mkBarData c)) hstep
    simpa [runEvents, add_bar, List.append_assoc] using hrec

/-- A nonempty run of forming-bar callbacks for a registered request with
`include_forming` set replaces the tail slot with each update in turn:
the final bar list is the original without its last element, followed by
the last update. -/
theorem runEvents_formingBars (i : Nat) (us : List IBBar) :
    ∀ (r0 : Registry) (r : BarFetchRequest) (u : IBBar), r0 i = some r →
      r.include_forming = true → us.getLast? = some u →
      (runEvents r0 (us.map (TwsEvent.formingBar i))) i =
        some { r with bars := r.bars.dropLast ++ [mkBarData u] } := by
  induction us with
  | nil =>
    intro r0 r u h hf hl
    simp at hl
  | cons u0 us ih =>
    intro r0 r u h hf hl
    have hstep : (stepEvent r0 (TwsEvent.formingBar i u0)) i =
        some (update_last_bar r (mkBarData u0)) := by
      simp [stepEvent, historicalDataUpdate, h, hf, register_request]
    cases us with
    | nil =>
      have hu : u = u0 := by simpa using hl.symm
      subst hu
      simpa [runEvents, update_last_bar_eq] using hstep
    | cons u1 us1 =>
      have hl2 : (u1 :: us1).getLast? = some u := by
        simpa [List.getLast?_cons_cons] using hl
      have hf2 : (update_last_bar r (mkBarData u0)).include_forming =
          true := by
        simpa [update_last_bar_eq] using hf
      have hrec := ih (stepEvent r0 (TwsEvent.formingBar i u0))
        (update_last_bar r (mkBarData u0)) u hstep hf2 hl2
      simpa [runEvents, update_last_bar_eq, List.dropLast_concat]
        using hrec

/-- C2 counterexample: scenario B run against the wrapper embedding — ten
complete bars, data-end, then three forming updates for request id 1 with
streaming retention on — leaves ten stored bars, not the eleven the claim
asserts; the first forming update overwrote the tenth complete bar, and
the tail equals the third update. -/
theorem c2_scenario_b_counterexample :
    ((runEvents (oneReqRegistry 1) scenarioB) 1).map
        (fun r => r.bars.length) = some 10 ∧
    ((runEvents (oneReqRegistry 1) scenarioB) 1).map
        (fun r => r.bars.length) ≠ some 11 ∧
    ((runEvents (oneReqRegistry 1) scenarioB) 1).map
        (fun r => r.bars.map BarData.date) =
      some ["0", "1", "2", "3", "4", "5", "6", "7", "8", "u3"] := by
  refine ⟨by decide, by decide, by decide⟩

/-- C2 amended: for one fetch with includeForming set, every complete-bar
callback appends and every forming-bar update replaces the single tail
slot, so after N ≥ 1 complete bars followed by K ≥ 1 forming updates the
stored sequence has exactly N bars — the first N − 1 complete bars
followed by one forming bar equal to the K-th update (the first update
overwrites the N-th complete bar; scenario B yields 10 bars, not 11). -/
theorem c2_forming_updates_overwrite_tail (i : Nat) (r0 : Registry)
    (r : BarFetchRequest) (cs us : List IBBar) (u : IBBar)
    (hreg : r0 i = some r) (hf : r.include_forming = true)
    (hempty : r.bars = []) (hcs : cs ≠ []) (hlast : us.getLast? = some u) :
    (runEvents r0 (cs.map (TwsEvent.completeBar i)
        ++ us.map (TwsEvent.formingBar i))) i =
      some { r with bars :=
        (cs.map mkBarData).dropLast ++ [mkBarData u] } ∧
    ((cs.map mkBarData).dropLast ++ [mkBarData u]).length = cs.length := by
  have hmid : (runEvents r0 (cs.map (TwsEvent.completeBar i))) i =
      some { r with bars := cs.map mkBarData } := by
    simpa [hempty] using runEvents_completeBars i cs r0 r hreg
  have hf2 : ({ r with bars := cs.map mkBarData } :
      BarFetchRequest).include_forming = true := hf
  have h2 := runEvents_formingBars i us
    (runEvents r0 (cs.map (TwsEvent.completeBar i)))
    { r with bars := cs.map mkBarData } u hmid hf2 hlast
  constructor
  · have hsplit : runEvents r0 (cs.map (TwsEvent.completeBar i)
        ++ us.map (TwsEvent.formingBar i)) =
      runEvents (runEvents r0 (cs.map (TwsEvent.completeBar i)))
        (us.map (TwsEvent.formingBar i)) := by
      simp [runEvents, List.foldl_append]
    rw [hsplit]
    simpa using h2
  · have hpos : 0 < cs.length := List.length_pos.mpr hcs
    simp [List.length_dropLast, List.length_map]
    omega

/-- C2 witness: the amended theorem applied to two complete bars followed
by two forming updates — two bars remain, the second being the last
update. -/
theorem c2_forming_updates_overwrite_tail_witness :
    (runEvents (oneReqRegistry 1)
        ([tagBar "a", tagBar "b"].map (TwsEvent.completeBar 1)
          ++ [tagBar "x", tagBar "y"].map (TwsEvent.formingBar 1))) 1 =
      some { freshReq 1 with bars :=
        ([tagBar "a", tagBar "b"].map mkBarData).dropLast
          ++ [mkBarData (tagBar "y")] } ∧
    (([tagBar "a", tagBar "b"].map mkBarData).dropLast
        ++ [mkBarData (tagBar "y")]).length = 2 :=
  c2_forming_updates_overwrite_tail 1 (oneReqRegistry 1) (freshReq 1)
    [tagBar "a", tagBar "b"] [tagBar "x", tagBar "y"] (tagBar "y")
    rfl rfl rfl (by decide) (by decide)

/-! ## C1 -/

/-- Subscribing when a subscription for the symbol already exists attaches
the connection id, reuses the stored request id, reports the existing
flag, and issues no vendor call. -/
theorem subscribe_existing (st : SMState)
    (symbol period session what cid : String) (cb : Bool)
    (sub : StreamingSubscription)
    (h : st.subscriptions symbol = some sub) :
    subscribe st symbol period session what cid cb =
      (.subscribed symbol sub.req_id true
         (insert cid sub.subscribers).card,
       { st with subscriptions := fun s =>
          if s = symbol then some (add_subscriber sub cid)
          else st.subscriptions s },
       []) := by
  simp [subscribe, add_subscriber, h]

/-- Subscribing when no subscription exists for the symbol allocates the
next request id, issues exactly one vendor streaming request with
keepUpToDate, and installs the subscription with the caller as sole
subscriber. -/
theorem subscribe_fresh (st : SMState)
    (symbol period session what cid : String) (cb : Bool)
    (bar_size : String)
    (hfresh : st.subscriptions symbol = none)
    (hbs : streaming_bar_size_map period = some bar_size) :
    subscribe st symbol period session what cid cb =
      (.subscribed symbol st.nextReqId false 1,
       { subscriptions := fun s =>
           if s = symbol then
             some (add_subscriber
               (initSubscription st.nextReqId symbol period session what)
               cid)
           else st.subscriptions s,
         callbacks := fun s =>
           if s = symbol then (cb || st.callbacks s) else st.callbacks s,
         nextReqId := st.nextReqId + 1,
         connected := st.connected },
       [Effect.reqHistoricalData st.nextReqId symbol bar_size true]) := by
  simp [subscribe, hfresh, hbs]

/-- Folding set insertion over a list of ids adds exactly the ids. -/
theorem insertAll_eq_union (ids : List String) :
    ∀ s : Finset String, insertAll ids s = s ∪ ids.toFinset := by
  induction ids with
  | nil => intro s; simp [insertAll]
  | cons a l ih =>
    intro s
    have h := ih (insert a s)
    simp only [insertAll, List.foldl_cons] at h ⊢
    rw [h]
    simp [Finset.insert_union, Finset.union_insert, List.toFinset_cons]

/-- Running `subscribeAll` from a state that already holds a subscription
for the symbol: every response carries the stored request id with the
existing flag, no vendor call is issued, and the subscriber set grows by
exactly the processed ids. -/
theorem subscribeAll_existing (symbol period session what : String)
    (ids : List String) :
    ∀ (st : SMState) (sub : StreamingSubscription),
      st.subscriptions symbol = some sub →
      ((subscribeAll st symbol period session what ids).1.map
          SubResult.reqIdOf =
        List.replicate ids.length (some sub.req_id)) ∧
      ((subscribeAll st symbol period session what ids).1.map
          SubResult.existingOf =
        List.replicate ids.length (some true)) ∧
      (subscribeAll st symbol period session what ids).2.2 = [] ∧
      (subscribeAll st symbol period session what
          ids).2.1.subscriptions symbol =
        some { sub with subscribers := insertAll ids sub.subscribers } := by
  induction ids with
  | nil =>
    intro st sub h
    refine ⟨rfl, rfl, rfl, ?_⟩
    simpa [subscribeAll, insertAll] using h
  | cons a l ih =>
    intro st sub h
    have hstep := subscribe_existing st symbol period session what a false
      sub h
    have hres : (subscribe st symbol period session what a false).1 =
        .subscribed symbol sub.req_id true
          (insert a sub.subscribers).card := by
      rw [hstep]
    have heff : (subscribe st symbol period session what a false).2.2 =
        [] := by
      rw [hstep]
    have h2 : (subscribe st symbol period session what a
        false).2.1.subscriptions symbol =
        some (add_subscriber sub a) := by
      rw [hstep]
      simp
    have ihh := ih (subscribe st symbol period session what a false).2.1
      (add_subscriber sub a) h2
    refine ⟨?_, ?_, ?_, ?_⟩
    · simpa [subscribeAll, hres, SubResult.reqIdOf, add_subscriber,
        List.replicate_succ] using ihh.1
    · simpa [subscribeAll, hres, SubResult.existingOf,
        List.replicate_succ] using ihh.2.1
    · simpa [subscribeAll, heff] using ihh.2.2.1
    · simpa [subscribeAll, insertAll, add_subscriber, List.foldl_cons]
        using ihh.2.2.2

/-- C1: a sequence of subscribe calls with identical (instrument,
barSize, sessionFilter, dataKind) parameters, starting from a state with
no subscription for the symbol, issues exactly one vendor streaming
request; every call returns the first call's request id, every call after
the first reports the already-existing flag, and after N distinct
subscribers the subscriber set holds exactly N entries. -/
theorem c1_subscribe_dedup (st : SMState)
    (symbol period session what bar_size : String) (ids : List String)
    (hfresh : st.subscriptions symbol = none)
    (hbs : streaming_bar_size_map period = some bar_size)
    (hne : ids ≠ []) (hnd : ids.Nodup) :
    (subscribeAll st symbol period session what ids).2.2 =
      [Effect.reqHistoricalData st.nextReqId symbol bar_size true] ∧
    (subscribeAll st symbol period session what ids).1.map
        SubResult.reqIdOf =
      List.replicate ids.length (some st.nextReqId) ∧
    (subscribeAll st symbol period session what ids).1.map
        SubResult.existingOf =
      some false :: List.replicate (ids.length - 1) (some true) ∧
    ∃ sub, (subscribeAll st symbol period session what
          ids).2.1.subscriptions symbol = some sub ∧
      sub.req_id = st.nextReqId ∧
      sub.subscribers = ids.toFinset ∧
      sub.subscribers.card = ids.length := by
  cases ids with
  | nil => cases hne rfl
  | cons a l =>
    have hstep := subscribe_fresh st symbol period session what a false
      bar_size hfresh hbs
    have hres : (subscribe st symbol period session what a false).1 =
        .subscribed symbol st.nextReqId false 1 := by
      rw [hstep]
    have heff : (subscribe st symbol period session what a false).2.2 =
        [Effect.reqHistoricalData st.nextReqId symbol bar_size true] := by
      rw [hstep]
    have h2 : (subscribe st symbol period session what a
        false).2.1.subscriptions symbol =
        some (add_subscriber
          (initSubscription st.nextReqId symbol period session what) a) := by
      rw [hstep]
      simp
    have ihh := subscribeAll_existing symbol period session what l
      (subscribe st symbol period session what a false).2.1 _ h2
    refine ⟨?_, ?_, ?_, ?_⟩
    · simpa [subscribeAll, heff] using ihh.2.2.1
    · simpa [subscribeAll, hres, SubResult.reqIdOf, add_subscriber,
        initSubscription, List.replicate_succ] using ihh.1
    · simpa [subscribeAll, hres, SubResult.existingOf] using ihh.2.1
    · refine ⟨_, ihh.2.2.2, rfl, ?_, ?_⟩
      · show insertAll l (add_subscriber
          (initSubscription st.nextReqId symbol period session what)
            a).subscribers = (a :: l).toFinset
        rw [insertAll_eq_union]
        simp only [add_subscriber, initSubscription, List.toFinset_cons]
        ext x
        simp
      · show (insertAll l (add_subscriber
          (initSubscription st.nextReqId symbol period session what)
            a).subscribers).card = (a :: l).length
        rw [insertAll_eq_union]
        have hu : (add_subscriber
            (initSubscription st.nextReqId symbol period session what)
              a).subscribers ∪ l.toFinset = (a :: l).toFinset := by
          simp only [add_subscriber, initSubscription, List.toFinset_cons]
          ext x
          simp
        rw [hu, List.toFinset_card_of_nodup hnd]

/-- C1 witness: two distinct subscribers "A" and "B" for the same stream
key from the empty state — one vendor request (id 5000), both responses
carry id 5000, the second reports existing, and the subscriber set has
two entries. -/
theorem c1_subscribe_dedup_witness :
    (subscribeAll (emptySMState true) "SPY" "5m" "rth" "TRADES"
        ["A", "B"]).2.2 =
      [Effect.reqHistoricalData 5000 "SPY" "5 mins" true] ∧
    (subscribeAll (emptySMState true) "SPY" "5m" "rth" "TRADES"
        ["A", "B"]).1.map SubResult.reqIdOf =
      List.replicate 2 (some 5000) ∧
    (subscribeAll (emptySMState true) "SPY" "5m" "rth" "TRADES"
        ["A", "B"]).1.map SubResult.existingOf =
      some false :: List.replicate 1 (some true) ∧
    ∃ sub, (subscribeAll (emptySMState true) "SPY" "5m" "rth" "TRADES"
          ["A", "B"]).2.1.subscriptions "SPY" = some sub ∧
      sub.req_id = 5000 ∧
      sub.subscribers = (["A", "B"] : List String).toFinset ∧
      sub.subscribers.card = 2 :=
  c1_subscribe_dedup (emptySMState true) "SPY" "5m" "rth" "TRADES"
    "5 mins" ["A", "B"] rfl rfl (by decide) (by decide)

end TwsBridge
